import Mathlib

/-!
Verification of the CRAG (Corrective RAG) orchestration engine of the
Al-Muhami Al-Zaki repository.

The embedding follows `src/graph/state.py`, `src/graph/edges.py`,
`src/graph/nodes.py` and `src/graph/builder.py`:

* `Doc` is a retrieved passage (a LangChain `Document` as built in
  `nodes.retrieve`, lines 52-64: `page_content` plus the five metadata
  fields).
* `GraphState` is the `TypedDict` of `state.py`.  The channel
  `graded_documents` is declared `Annotated[List[Document], add]`
  (state.py line 43), so a node update for that channel is APPENDED to the
  current value by the LangGraph reducer, while every other channel is
  replaced wholesale.  Each node function below applies its own update
  dict with exactly that merge rule, writing `old ++ new` for the
  `graded_documents` channel.
* The external services (vector search, grading model, rewriter model,
  generator model) are oracles collected in `Env`; they may behave
  arbitrarily and are indexed by the cycle number (= current
  `rewrite_count`) so that every per-run behaviour is expressible.
* `cycleStep` is one retrieval/grading cycle followed by the conditional
  edge of `builder.py` lines 91-99 (the routing string maps to the node of
  the same name); `Sum.inl` is a finished run (a terminal node executed),
  `Sum.inr` is the state looped back into `retrieve`.
* `runCycles n s` iterates at most `n` cycles; termination of the engine
  is proved as a theorem about it, not assumed.
-/

namespace AlMuhamiCrag

/-- A retrieved passage: `page_content` plus the metadata dict built in
`nodes.retrieve` (source name, article number, law number, law year,
score). -/
structure Doc where
  page_content : String
  source_name : String
  article_number : String
  law_number : String
  law_year : String
  score : Int
deriving DecidableEq, Repr

/-- The `GraphState` TypedDict of `src/graph/state.py`. -/
structure GraphState where
  question : String
  generation : String
  documents : List Doc
  graded_documents : List Doc
  grade_decision : String
  rewrite_count : Nat
  query_history : List String
deriving DecidableEq, Repr

/-- Function `create_initial_state` of `src/graph/state.py` lines
53-71. -/
def create_initial_state (question : String) : GraphState :=
  { question := question
    generation := ""
    documents := []
    graded_documents := []
    grade_decision := ""
    rewrite_count := 0
    query_history := [question] }

/-- Function `route_after_grading` of `src/graph/edges.py` lines 15-54.
`max_rewrite_attempts` is `get_settings().max_rewrite_attempts`
(config.py, default 2, `ge=0`). -/
def route_after_grading (max_rewrite_attempts : Nat) (state : GraphState) :
    String :=
  let has_relevant_docs := state.graded_documents.length > 0
  let can_rewrite := state.rewrite_count < max_rewrite_attempts
  if has_relevant_docs then "generate"
  else if can_rewrite then "rewrite"
  else "generate"

/-- Helper for `strContains`: does `needle` occur as a contiguous
sub-list? -/
def listContainsSub (needle : List Char) : List Char → Bool
  | [] => needle.isEmpty
  | c :: cs => needle.isPrefixOf (c :: cs) || listContainsSub needle cs

/-- Python substring test `needle in hay`. -/
def strContains (hay needle : String) : Bool :=
  listContainsSub needle.toList hay.toList

/-- Python `str.lower()` (character-wise lowering). -/
def strLower (s : String) : String :=
  String.mk (s.toList.map Char.toLower)

/-- Python `str.strip()` (drop whitespace from both ends). -/
def strStrip (s : String) : String :=
  String.mk
    (((s.toList.dropWhile Char.isWhitespace).reverse.dropWhile
        Char.isWhitespace).reverse)

/-- The response parsing of `grade_documents` (nodes.py lines 122-123):
`grade = response.content.strip().lower()`;
`is_relevant = "relevant" in grade and "irrelevant" not in grade`. -/
def response_is_relevant (content : String) : Bool :=
  let grade := strLower (strStrip content)
  strContains grade "relevant" && !(strContains grade "irrelevant")

/-- Outcome of grading one passage: an `Except.ok` response is parsed with
`response_is_relevant`; an exception from the model call keeps the
document (nodes.py lines 135-138, `# On error, include document`). -/
def docKept (resp : Except Unit String) : Bool :=
  match resp with
  | Except.ok content => response_is_relevant content
  | Except.error _ => true

/-- The grader prompt of `src/prompts/grader.py` (`get_grader_prompt`):
a system message and a human message built from question and document. -/
def get_grader_prompt (question document : String) : List String :=
  ["أنت مقيّم قانوني. مهمتك تحديد ما إذا كان المستند مرتبطاً بالسؤال."
  , "## السؤال القانوني:\n" ++ question ++
    "\n\n## المستند للتقييم:\n" ++ document ++
    "\n\n## الحكم (relevant أو irrelevant فقط):"]

/-- The external collaborators of the engine, as oracles.  `search` is the
embedder/Qdrant lookup of `nodes.retrieve`; the three `...Resp` fields are
the model calls of grader, rewriter and generator (`Except.error` is a
raised exception from `llm.ainvoke`).  Each oracle also receives the cycle
number (the current `rewrite_count`), so any per-run behaviour of the
services can be expressed. -/
structure Env where
  search : Nat → String → List Doc
  gradeResp : Nat → String → Doc → Except Unit String
  rewriteResp : Nat → String → Except Unit String
  genResp : Nat → String → List Doc → Except Unit String

/-- The `for doc in documents` loop of `grade_documents` (nodes.py lines
111-138).  First component: the `graded_documents` list it builds (a doc
is appended exactly when `docKept` holds of its model response).  Second
component: the prompts sent to the model, one `llm.ainvoke` per document,
in loop order — the loop has no skip of any document. -/
def gradeLoop (env : Env) (cycle : Nat) (question : String) :
    List Doc → List Doc × List (List String)
  | [] => ([], [])
  | d :: ds =>
      let resp := env.gradeResp cycle question d
      let rest := gradeLoop env cycle question ds
      ((if docKept resp then d :: rest.1 else rest.1),
        get_grader_prompt question d.page_content :: rest.2)

/-- The `retrieve` node (nodes.py lines 25-68): replaces `documents` with
the search results for the current question. -/
def retrieve (env : Env) (s : GraphState) : GraphState :=
  { s with documents := env.search s.rewrite_count s.question }

/-- The `grade_documents` node (nodes.py lines 71-142) composed with the
LangGraph channel merge: the update dict's `graded_documents` entry is
appended (`add` reducer) to the existing channel value; `grade_decision`
is replaced when present (it is only present in the empty-`documents`
early return, lines 90-97). -/
def grade_documents (env : Env) (max_rewrite_attempts : Nat)
    (s : GraphState) : GraphState :=
  if s.documents.isEmpty then
    { s with graded_documents := s.graded_documents ++ []
             grade_decision :=
               if s.rewrite_count < max_rewrite_attempts then "rewrite"
               else "no_answer" }
  else
    { s with graded_documents :=
        s.graded_documents ++
          (gradeLoop env s.rewrite_count s.question s.documents).1 }

/-- The fixed fallback answer of the `generate` node (nodes.py line 198). -/
def GENERATION_FALLBACK : String :=
  "عذراً، حدث خطأ أثناء إنشاء الإجابة. يرجى المحاولة مرة أخرى."

/-- The `generate` node (nodes.py lines 145-200): sets `generation` to the
model response, or to the fixed apology string when the call raises. -/
def generate (env : Env) (s : GraphState) : GraphState :=
  { s with generation :=
      match env.genResp s.rewrite_count s.question s.graded_documents with
      | Except.ok content => content
      | Except.error _ => GENERATION_FALLBACK }

/-- The `rewrite_query` node (nodes.py lines 203-249) composed with the
LangGraph channel merge.  On a model error the new question is the
original question unchanged (lines 238-241).  The update dict resets
`documents` (replaced channel) and puts `[]` on the `graded_documents`
channel, which the `add` reducer APPENDS — hence `++ []`. -/
def rewrite_query (env : Env) (s : GraphState) : GraphState :=
  let new_question :=
    match env.rewriteResp s.rewrite_count s.question with
    | Except.ok content => strStrip content
    | Except.error _ => s.question
  { s with question := new_question
           rewrite_count := s.rewrite_count + 1
           query_history := s.query_history ++ [new_question]
           documents := []
           graded_documents := s.graded_documents ++ [] }

/-- The fixed refusal message of the `no_answer` node (nodes.py lines
266-273). -/
def NO_ANSWER_MESSAGE : String :=
  "عذراً، لم أتمكن من العثور على معلومات قانونية ذات صلة بسؤالك " ++
  "في قاعدة البيانات المتاحة.\n\nيرجى:\n" ++
  "1. إعادة صياغة السؤال بشكل أكثر تحديداً\n" ++
  "2. تحديد القانون أو المادة المطلوبة (إن أمكن)\n" ++
  "3. استشارة محامٍ متخصص للحالات المعقدة"

/-- The `no_answer` node (nodes.py lines 252-275). -/
def no_answer (s : GraphState) : GraphState :=
  { s with generation := NO_ANSWER_MESSAGE }

/-- State after the unconditional edge `retrieve -> grade` of the builder
(builder.py line 88). -/
def afterGrade (env : Env) (max_rewrite_attempts : Nat) (s : GraphState) :
    GraphState :=
  grade_documents env max_rewrite_attempts (retrieve env s)

/-- One cycle of the compiled graph: `retrieve`, `grade`, then the
conditional edge of builder.py lines 91-99, whose mapping sends the
routing string to the node of the same name.  `generate` and `no_answer`
go to `END` (`Sum.inl`); `rewrite` loops back to `retrieve`
(`Sum.inr`, builder.py line 102). -/
def cycleStep (env : Env) (max_rewrite_attempts : Nat) (s : GraphState) :
    GraphState ⊕ GraphState :=
  if route_after_grading max_rewrite_attempts
      (afterGrade env max_rewrite_attempts s) = "rewrite" then
    Sum.inr (rewrite_query env (afterGrade env max_rewrite_attempts s))
  else if route_after_grading max_rewrite_attempts
      (afterGrade env max_rewrite_attempts s) = "generate" then
    Sum.inl (generate env (afterGrade env max_rewrite_attempts s))
  else
    Sum.inl (no_answer (afterGrade env max_rewrite_attempts s))

/-- At most `n` cycles of the engine from state `s`: `Sum.inl t` means a
terminal node executed and the run finished in final state `t`;
`Sum.inr s` means the budget `n` was used up with the run still going at
state `s` (in particular `runCycles 0 s = Sum.inr s`). -/
def runCycles (env : Env) (max_rewrite_attempts : Nat) :
    Nat → GraphState → GraphState ⊕ GraphState
  | 0, s => Sum.inr s
  | n + 1, s =>
      match cycleStep env max_rewrite_attempts s with
      | Sum.inl t => Sum.inl t
      | Sum.inr s2 => runCycles env max_rewrite_attempts n s2

/-- The names of the nodes the conditional edge dispatches to, cycle by
cycle, during the first `n` cycles of a run (the dict of builder.py lines
94-98 maps each routing string to the node of the same name). -/
def runDecisions (env : Env) (max_rewrite_attempts : Nat) :
    Nat → GraphState → List String
  | 0, _ => []
  | n + 1, s =>
      route_after_grading max_rewrite_attempts
          (afterGrade env max_rewrite_attempts s) ::
        (match cycleStep env max_rewrite_attempts s with
         | Sum.inl _ => []
         | Sum.inr s2 => runDecisions env max_rewrite_attempts n s2)

/-! ## Concrete inputs used by counterexamples and witnesses -/

/-- A sample retrieved passage. -/
def sampleDoc : Doc :=
  { page_content := "t", source_name := "s", article_number := "802",
    law_number := "131", law_year := "1948", score := 1 }

/-- A retrieved passage whose content is the empty string. -/
def emptyDoc : Doc :=
  { page_content := "", source_name := "s", article_number := "1",
    law_number := "131", law_year := "1948", score := 0 }

/-- An environment in which every external call raises. -/
def envError : Env :=
  { search := fun _ _ => []
    gradeResp := fun _ _ _ => Except.error ()
    rewriteResp := fun _ _ => Except.error ()
    genResp := fun _ _ _ => Except.error () }

/-- An environment in which retrieval always finds one passage, the
grading model always answers `"irrelevant"`, the rewriter prefixes the
query with `"r"`, and the generator answers `"ans"`. -/
def envIrr : Env :=
  { search := fun _ _ => [sampleDoc]
    gradeResp := fun _ _ _ => Except.ok "irrelevant"
    rewriteResp := fun _ q => Except.ok ("r" ++ q)
    genResp := fun _ _ _ => Except.ok "ans" }

/-- An environment whose grading model answers with a malformed verdict
(neither `relevant` nor `irrelevant` occurs in it). -/
def envMalformed : Env :=
  { envError with gradeResp := fun _ _ _ => Except.ok "maybe" }

/-- A state carrying a document on the `graded_documents` channel. -/
def stateWithGraded : GraphState :=
  { create_initial_state "q" with graded_documents := [sampleDoc] }

/-- A state whose current attempt retrieved one passage. -/
def stateWithDoc : GraphState :=
  { create_initial_state "q" with documents := [sampleDoc] }

/-- A state with a given number of relevant documents and a given rewrite
count, for exercising the routing decision table. -/
def stateDecision (relevant_count retry_count : Nat) : GraphState :=
  { create_initial_state "q" with
      graded_documents := List.replicate relevant_count sampleDoc
      rewrite_count := retry_count }

/-! ## Helper lemmas -/

theorem route_unfold (m : Nat) (s : GraphState) :
    route_after_grading m s =
      if s.graded_documents.length > 0 then "generate"
      else if s.rewrite_count < m then "rewrite" else "generate" := rfl

theorem route_cases (m : Nat) (s : GraphState) :
    route_after_grading m s = "generate" ∨
      route_after_grading m s = "rewrite" := by
  rw [route_unfold]
  split_ifs <;> simp

theorem route_ne_no_answer (m : Nat) (s : GraphState) :
    route_after_grading m s ≠ "no_answer" := by
  rcases route_cases m s with h | h <;> rw [h] <;> decide

theorem route_eq_rewrite_iff (m : Nat) (s : GraphState) :
    route_after_grading m s = "rewrite" ↔
      s.graded_documents = [] ∧ s.rewrite_count < m := by
  rw [route_unfold]
  split_ifs with h1 h2
  · simp only [List.length_pos] at h1
    constructor
    · intro h; exact absurd h (by decide)
    · rintro ⟨h, -⟩; exact absurd h h1
  · simp [List.length_eq_zero.mp (Nat.le_zero.mp (Nat.not_lt.mp h1)), h2]
  · constructor
    · intro h; exact absurd h (by decide)
    · rintro ⟨-, h⟩; exact absurd h h2

theorem route_eq_generate_of_le (m : Nat) (s : GraphState)
    (h : m ≤ s.rewrite_count) : route_after_grading m s = "generate" := by
  rcases route_cases m s with hg | hr
  · exact hg
  · exact absurd ((route_eq_rewrite_iff m s).mp hr).2 (Nat.not_lt.mpr h)

theorem afterGrade_rewrite_count (env : Env) (m : Nat) (s : GraphState) :
    (afterGrade env m s).rewrite_count = s.rewrite_count := by
  unfold afterGrade grade_documents retrieve
  split_ifs <;> rfl

theorem afterGrade_query_history (env : Env) (m : Nat) (s : GraphState) :
    (afterGrade env m s).query_history = s.query_history := by
  unfold afterGrade grade_documents retrieve
  split_ifs <;> rfl

theorem rewrite_query_fields (env : Env) (s : GraphState) :
    (rewrite_query env s).rewrite_count = s.rewrite_count + 1 ∧
    (rewrite_query env s).documents = [] ∧
    (rewrite_query env s).graded_documents = s.graded_documents ∧
    (rewrite_query env s).query_history.length =
      s.query_history.length + 1 := by
  unfold rewrite_query
  refine ⟨rfl, rfl, List.append_nil _, ?_⟩
  simp

theorem cycleStep_eq_inr_of_route (env : Env) (m : Nat) (s : GraphState)
    (h : route_after_grading m (afterGrade env m s) = "rewrite") :
    cycleStep env m s = Sum.inr (rewrite_query env (afterGrade env m s)) := by
  unfold cycleStep
  rw [if_pos h]

theorem cycleStep_inr_elim (env : Env) (m : Nat) (s s' : GraphState)
    (h : cycleStep env m s = Sum.inr s') :
    s'.rewrite_count = s.rewrite_count + 1 ∧
    s'.documents = [] ∧ s'.graded_documents = [] ∧
    s'.query_history.length = s.query_history.length + 1 := by
  unfold cycleStep at h
  split_ifs at h with h1
  have hs' := Sum.inr.inj h
  have hfields := rewrite_query_fields env (afterGrade env m s)
  have hgr := ((route_eq_rewrite_iff m (afterGrade env m s)).mp h1).1
  refine ⟨?_, ?_, ?_, ?_⟩
  · rw [← hs', hfields.1, afterGrade_rewrite_count]
  · rw [← hs']; exact hfields.2.1
  · rw [← hs', hfields.2.2.1, hgr]
  · rw [← hs', hfields.2.2.2, afterGrade_query_history]

theorem cycleStep_inl_of_le (env : Env) (m : Nat) (s : GraphState)
    (h : m ≤ s.rewrite_count) : ∃ t, cycleStep env m s = Sum.inl t := by
  have hroute : route_after_grading m (afterGrade env m s) = "generate" := by
    apply route_eq_generate_of_le
    rw [afterGrade_rewrite_count]
    exact h
  refine ⟨generate env (afterGrade env m s), ?_⟩
  unfold cycleStep
  rw [hroute, if_neg (by decide), if_pos rfl]

theorem runCycles_succ_inl (env : Env) (m n : Nat) (s t : GraphState)
    (h : cycleStep env m s = Sum.inl t) :
    runCycles env m (n + 1) s = Sum.inl t := by
  show (match cycleStep env m s with
        | Sum.inl t => Sum.inl t
        | Sum.inr s2 => runCycles env m n s2) = Sum.inl t
  rw [h]

theorem runCycles_succ_inr (env : Env) (m n : Nat) (s s2 : GraphState)
    (h : cycleStep env m s = Sum.inr s2) :
    runCycles env m (n + 1) s = runCycles env m n s2 := by
  show (match cycleStep env m s with
        | Sum.inl t => Sum.inl t
        | Sum.inr s2 => runCycles env m n s2) = runCycles env m n s2
  rw [h]

theorem runCycles_inl_of_le (env : Env) (m : Nat) :
    ∀ (n : Nat) (s : GraphState), m ≤ s.rewrite_count + n →
      ∃ t, runCycles env m (n + 1) s = Sum.inl t := by
  intro n
  induction n with
  | zero =>
      intro s h
      obtain ⟨t, ht⟩ := cycleStep_inl_of_le env m s (by omega)
      exact ⟨t, runCycles_succ_inl env m 0 s t ht⟩
  | succ n ih =>
      intro s h
      rcases hcs : cycleStep env m s with t | s2
      · exact ⟨t, runCycles_succ_inl env m (n + 1) s t hcs⟩
      · have hc := (cycleStep_inr_elim env m s s2 hcs).1
        obtain ⟨t, ht⟩ := ih s2 (by omega)
        exact ⟨t, by rw [runCycles_succ_inr env m (n + 1) s s2 hcs, ht]⟩

theorem runCycles_inr_count (env : Env) (m : Nat) :
    ∀ (n : Nat) (s s' : GraphState), runCycles env m n s = Sum.inr s' →
      s'.rewrite_count = s.rewrite_count + n ∧
      s'.query_history.length = s.query_history.length + n := by
  intro n
  induction n with
  | zero =>
      intro s s' h
      have : s = s' := Sum.inr.inj h
      simp [← this]
  | succ n ih =>
      intro s s' h
      rcases hcs : cycleStep env m s with t | s2
      · rw [runCycles_succ_inl env m n s t hcs] at h
        exact absurd h (by simp)
      · rw [runCycles_succ_inr env m n s s2 hcs] at h
        have h2 := ih s2 s' h
        have h3 := cycleStep_inr_elim env m s s2 hcs
        omega

theorem runCycles_inr_reset (env : Env) (m : Nat) :
    ∀ (n : Nat) (s s' : GraphState), runCycles env m n s = Sum.inr s' →
      s.documents = [] → s.graded_documents = [] →
      s'.documents = [] ∧ s'.graded_documents = [] := by
  intro n
  induction n with
  | zero =>
      intro s s' h hd hg
      have : s = s' := Sum.inr.inj h
      rw [← this]
      exact ⟨hd, hg⟩
  | succ n ih =>
      intro s s' h hd hg
      rcases hcs : cycleStep env m s with t | s2
      · rw [runCycles_succ_inl env m n s t hcs] at h
        exact absurd h (by simp)
      · rw [runCycles_succ_inr env m n s s2 hcs] at h
        have h3 := cycleStep_inr_elim env m s s2 hcs
        exact ih s2 s' h h3.2.1 h3.2.2.1

theorem gradeLoop_fst_eq_filter (env : Env) (c : Nat) (q : String) :
    ∀ docs : List Doc, (gradeLoop env c q docs).1 =
      docs.filter (fun d => docKept (env.gradeResp c q d)) := by
  intro docs
  induction docs with
  | nil => rfl
  | cons d ds ih => simp [gradeLoop, List.filter_cons, ih]

theorem gradeLoop_snd_eq_map (env : Env) (c : Nat) (q : String) :
    ∀ docs : List Doc, (gradeLoop env c q docs).2 =
      docs.map (fun d => get_grader_prompt q d.page_content) := by
  intro docs
  induction docs with
  | nil => rfl
  | cons d ds ih => simp [gradeLoop, ih]

theorem gradeLoop_fst_nil (env : Env) (c : Nat) (q : String)
    (docs : List Doc) (h : ∀ d, docKept (env.gradeResp c q d) = false) :
    (gradeLoop env c q docs).1 = [] := by
  rw [gradeLoop_fst_eq_filter]
  simp [List.filter_eq_nil_iff, h]

theorem afterGrade_graded_of_irrel (env : Env) (m : Nat) (s : GraphState)
    (hirr : ∀ i qq d, docKept (env.gradeResp i qq d) = false)
    (hg : s.graded_documents = []) :
    (afterGrade env m s).graded_documents = [] := by
  unfold afterGrade grade_documents retrieve
  split_ifs <;> simp [hg, gradeLoop_fst_nil _ _ _ _ (hirr _ _)]

theorem runCycles_inr_of_irrel (env : Env) (m : Nat)
    (hirr : ∀ i qq d, docKept (env.gradeResp i qq d) = false) :
    ∀ (n : Nat) (s : GraphState), s.graded_documents = [] →
      s.rewrite_count + n ≤ m →
      ∃ s', runCycles env m n s = Sum.inr s' := by
  intro n
  induction n with
  | zero => intro s _ _; exact ⟨s, rfl⟩
  | succ n ih =>
      intro s hg hle
      have hag : (afterGrade env m s).graded_documents = [] :=
        afterGrade_graded_of_irrel env m s hirr hg
      have hroute : route_after_grading m (afterGrade env m s) = "rewrite" := by
        apply (route_eq_rewrite_iff _ _).mpr
        refine ⟨hag, ?_⟩
        rw [afterGrade_rewrite_count]
        omega
      have hstep := cycleStep_eq_inr_of_route env m s hroute
      have hfields := rewrite_query_fields env (afterGrade env m s)
      obtain ⟨s', hs'⟩ := ih (rewrite_query env (afterGrade env m s))
        (by rw [hfields.2.2.1, hag])
        (by rw [hfields.1, afterGrade_rewrite_count]; omega)
      refine ⟨s', ?_⟩
      rw [runCycles_succ_inr env m n s _ hstep, hs']

theorem runDecisions_succ (env : Env) (m n : Nat) (s : GraphState) :
    runDecisions env m (n + 1) s =
      route_after_grading m (afterGrade env m s) ::
        (match cycleStep env m s with
         | Sum.inl _ => []
         | Sum.inr s2 => runDecisions env m n s2) := rfl

theorem runDecions_no_answer_aux (env : Env) (m : Nat) :
    ∀ (n : Nat) (s : GraphState),
      "no_answer" ∉ runDecisions env m n s := by
  intro n
  induction n with
  | zero => intro s; simp [runDecisions]
  | succ n ih =>
      intro s
      rw [runDecisions_succ]
      rcases hcs : cycleStep env m s with t | s2
      · simp only [List.mem_cons, List.not_mem_nil, or_false]
        exact fun h => route_ne_no_answer m _ h.symm
      · simp only [List.mem_cons]
        rintro (h | h)
        · exact route_ne_no_answer m _ h.symm
        · exact ih s2 h

/-- The state after one rewrite cycle of `envIrr` on question `"q"`. -/
def sR1 : GraphState :=
  { question := "rq", generation := "", documents := [],
    graded_documents := [], grade_decision := "", rewrite_count := 1,
    query_history := ["q", "rq"] }

/-- The state after two rewrite cycles of `envIrr` on question `"q"`. -/
def sRR : GraphState :=
  { question := "rrq", generation := "", documents := [],
    graded_documents := [], grade_decision := "", rewrite_count := 2,
    query_history := ["q", "rq", "rrq"] }

/-! ## Claim theorems -/

/-- C1: the routing policy is a pure function of
(relevant_count, retry_count, max_retries): any `graded_documents` with at
least one element routes to `"generate"`; with zero relevant documents it
routes to `"rewrite"` while `rewrite_count < max_rewrite_attempts` and to
`"generate"` (forced fallback) otherwise, never to `"no_answer"`; the
decision depends only on the relevant count and the retry count; and the
four table rows route(1,0,2)=generate, route(0,0,2)=rewrite,
route(0,2,2)=generate, route(0,5,2)=generate hold. -/
theorem routing_policy_table :
    (∀ m s, route_after_grading m s =
        if 1 ≤ s.graded_documents.length then "generate"
        else if s.rewrite_count < m then "rewrite" else "generate") ∧
    (∀ m s s', s.graded_documents.length = s'.graded_documents.length →
        s.rewrite_count = s'.rewrite_count →
        route_after_grading m s = route_after_grading m s') ∧
    (∀ m s, route_after_grading m s ≠ "no_answer") ∧
    route_after_grading 2 (stateDecision 1 0) = "generate" ∧
    route_after_grading 2 (stateDecision 0 0) = "rewrite" ∧
    route_after_grading 2 (stateDecision 0 2) = "generate" ∧
    route_after_grading 2 (stateDecision 0 5) = "generate" := by
  refine ⟨?_, ?_, route_ne_no_answer, by decide, by decide, by decide,
    by decide⟩
  · intro m s
    rw [route_unfold]
    split_ifs <;> first | rfl | omega
  · intro m s s' h1 h2
    rw [route_unfold, route_unfold, h1, h2]

/-- Witness for C1 at concrete inputs: two states agreeing on relevant
count and retry count route identically. -/
theorem routing_policy_table_witness :
    route_after_grading 2 (stateDecision 0 0) =
      route_after_grading 2
        { stateDecision 0 0 with question := "other" } :=
  routing_policy_table.2.1 2 (stateDecision 0 0)
    { stateDecision 0 0 with question := "other" } rfl rfl

/-- C2: for every environment behaviour the engine reaches a terminal
node within `max_rewrite_attempts + 1` retrieval/grading cycles; when no
cycle ever produces a relevant passage it is still running after
`max_rewrite_attempts` cycles and terminates at exactly
`max_rewrite_attempts + 1`; the routing policy permits `"rewrite"` only
while `rewrite_count < max_rewrite_attempts`, and every rewrite
transition increments `rewrite_count` by 1. -/
theorem termination_within_retry_budget :
    (∀ env m q, ∃ t,
        runCycles env m (m + 1) (create_initial_state q) = Sum.inl t) ∧
    (∀ env m q, (∀ i qq d, docKept (env.gradeResp i qq d) = false) →
        (∃ s, runCycles env m m (create_initial_state q) = Sum.inr s) ∧
        ∃ t, runCycles env m (m + 1) (create_initial_state q) = Sum.inl t) ∧
    (∀ m s, route_after_grading m s = "rewrite" → s.rewrite_count < m) ∧
    (∀ env s, (rewrite_query env s).rewrite_count = s.rewrite_count + 1) := by
  refine ⟨?_, ?_, ?_, ?_⟩
  · intro env m q
    exact runCycles_inl_of_le env m m (create_initial_state q)
      (by simp [create_initial_state])
  · intro env m q hirr
    constructor
    · exact runCycles_inr_of_irrel env m hirr m (create_initial_state q)
        rfl (by simp [create_initial_state])
    · exact runCycles_inl_of_le env m m (create_initial_state q)
        (by simp [create_initial_state])
  · intro m s h
    exact ((route_eq_rewrite_iff m s).mp h).2
  · intro env s
    exact (rewrite_query_fields env s).1

/-- Witness for C2: with one retry allowed and an always-irrelevant
grader, the run is still going after 1 cycle and terminal after 2. -/
theorem termination_within_retry_budget_witness :
    (∃ s, runCycles envIrr 1 1 (create_initial_state "q") = Sum.inr s) ∧
    ∃ t, runCycles envIrr 1 2 (create_initial_state "q") = Sum.inl t :=
  termination_within_retry_budget.2.1 envIrr 1 "q" (fun _ _ _ => rfl)

/-- C3 counterexample: applied to a state already carrying a graded
document, the rewrite transition does NOT leave `graded_documents` empty:
the update dict's `[]` goes through the `add` reducer of
`state.py` line 43, which appends it, leaving the channel unchanged. -/
theorem rewrite_reset_counterexample :
    (rewrite_query envError stateWithGraded).graded_documents ≠ [] := by
  decide

/-- C3 amended: a rewrite transition always empties `documents` but
leaves the `graded_documents` channel unchanged (the `add` reducer
appends the empty update); nevertheless, in every run of the compiled
graph from a fresh initial state, the state looped back after a rewrite
has both `documents` and `graded_documents` empty, because the router
only selects `"rewrite"` when the graded set is empty. -/
theorem rewrite_reset_on_run :
    (∀ env s, (rewrite_query env s).documents = [] ∧
        (rewrite_query env s).graded_documents = s.graded_documents) ∧
    (∀ env m q n s,
        runCycles env m n (create_initial_state q) = Sum.inr s →
        s.documents = [] ∧ s.graded_documents = []) := by
  constructor
  · intro env s
    exact ⟨(rewrite_query_fields env s).2.1,
      (rewrite_query_fields env s).2.2.1⟩
  · intro env m q n s h
    exact runCycles_inr_reset env m n (create_initial_state q) s h rfl rfl

/-- Witness for C3 (amended): after the first rewrite cycle of a concrete
run, both passage fields are empty. -/
theorem rewrite_reset_on_run_witness :
    sR1.documents = [] ∧ sR1.graded_documents = [] :=
  rewrite_reset_on_run.2 envIrr 2 "q" 1 sR1 (by decide)

/-- C4 counterexample: a malformed (non-error) grader response — here
`"maybe"`, which contains neither verdict — does NOT fail open: the
passage is classified irrelevant and dropped from the graded set. -/
theorem grader_malformed_counterexample :
    (grade_documents envMalformed 2 stateWithDoc).graded_documents = [] := by
  decide

/-- C4 amended: the grader fails open on an ERROR of the model call (an
exception always classifies the passage relevant and it lands in the
graded set, so a grading failure is never fatal), while an ok-but-
malformed response classifies the passage by the parsed verdict — a
passage is in the graded set exactly when it was retrieved and its
response was an error or a well-formed relevant verdict. -/
theorem grader_fail_open_on_error :
    (∀ env c q docs d, d ∈ docs →
        env.gradeResp c q d = Except.error () →
        d ∈ (gradeLoop env c q docs).1) ∧
    (∀ env c q docs d, d ∈ (gradeLoop env c q docs).1 →
        d ∈ docs ∧ docKept (env.gradeResp c q d) = true) ∧
    (∀ e : Unit, docKept (Except.error e) = true) := by
  refine ⟨?_, ?_, fun _ => rfl⟩
  · intro env c q docs d hd hresp
    rw [gradeLoop_fst_eq_filter]
    exact List.mem_filter.mpr ⟨hd, by simp [hresp, docKept]⟩
  · intro env c q docs d hd
    rw [gradeLoop_fst_eq_filter] at hd
    exact ⟨(List.mem_filter.mp hd).1, (List.mem_filter.mp hd).2⟩

/-- Witness for C4 (amended): a model error while grading a concrete
passage puts that passage into the graded set. -/
theorem grader_fail_open_on_error_witness :
    sampleDoc ∈ (gradeLoop envError 0 "q" [sampleDoc]).1 :=
  grader_fail_open_on_error.1 envError 0 "q" [sampleDoc] sampleDoc
    (by decide) rfl

/-- C5: the router never returns `"no_answer"`; it never consults the
`grade_decision` channel that `grade_documents` writes on empty
retrieval; and in every run of the compiled graph from a fresh initial
state the `no_answer` node is never the dispatch target of the
conditional edge. -/
theorem no_answer_unreachable :
    (∀ m s, route_after_grading m s ≠ "no_answer") ∧
    (∀ m s d, route_after_grading m { s with grade_decision := d } =
        route_after_grading m s) ∧
    (∀ env m q n,
        "no_answer" ∉ runDecisions env m n (create_initial_state q)) := by
  refine ⟨route_ne_no_answer, ?_, ?_⟩
  · intro m s d
    rfl
  · intro env m q n
    exact runDecions_no_answer_aux env m n (create_initial_state q)

/-- Witness for C5 at a concrete run: the dispatch trace of two cycles
never names the `no_answer` node. -/
theorem no_answer_unreachable_witness :
    "no_answer" ∉ runDecisions envIrr 1 2 (create_initial_state "q") :=
  no_answer_unreachable.2.2 envIrr 1 "q" 2

/-- C6: the initial state has `rewrite_count = 0` and a singleton query
history; each rewrite transition increments `rewrite_count` by exactly 1
and appends exactly one entry to `query_history`; hence after exactly `n`
rewrite transitions (a run still going after `n` cycles) the state has
`rewrite_count = n` and `query_history` of length `n + 1`. -/
theorem retry_monotonicity :
    (∀ q, (create_initial_state q).rewrite_count = 0 ∧
        (create_initial_state q).query_history = [q]) ∧
    (∀ env s, (rewrite_query env s).rewrite_count = s.rewrite_count + 1 ∧
        (rewrite_query env s).query_history.length =
          s.query_history.length + 1) ∧
    (∀ env m q n s,
        runCycles env m n (create_initial_state q) = Sum.inr s →
        s.rewrite_count = n ∧ s.query_history.length = n + 1) := by
  refine ⟨fun q => ⟨rfl, rfl⟩, ?_, ?_⟩
  · intro env s
    exact ⟨(rewrite_query_fields env s).1, (rewrite_query_fields env s).2.2.2⟩
  · intro env m q n s h
    have h1 := runCycles_inr_count env m n (create_initial_state q) s h
    have h2 : (create_initial_state q).rewrite_count = 0 := rfl
    have h3 : (create_initial_state q).query_history.length = 1 := rfl
    omega

/-- Witness for C6: after the two rewrite transitions of a concrete run,
the retry count is 2 and the history has 3 entries. -/
theorem retry_monotonicity_witness :
    sRR.rewrite_count = 2 ∧ sRR.query_history.length = 2 + 1 :=
  retry_monotonicity.2.2 envIrr 2 "q" 2 sRR (by decide)

/-- C7: when the rewriter's model call errors, the rewrite node keeps the
original query text unchanged, still increments `rewrite_count` by 1 and
still appends the (identical) query to `query_history`; and whenever the
router selects `"rewrite"` the cycle loops back into a new retrieval
cycle instead of terminating. -/
theorem rewrite_failure_identity_fallback :
    (∀ env s, env.rewriteResp s.rewrite_count s.question =
          Except.error () →
        (rewrite_query env s).question = s.question ∧
        (rewrite_query env s).rewrite_count = s.rewrite_count + 1 ∧
        (rewrite_query env s).query_history =
          s.query_history ++ [s.question]) ∧
    (∀ env m s,
        route_after_grading m (afterGrade env m s) = "rewrite" →
        cycleStep env m s =
          Sum.inr (rewrite_query env (afterGrade env m s))) := by
  constructor
  · intro env s h
    unfold rewrite_query
    rw [h]
    exact ⟨rfl, rfl, rfl⟩
  · intro env m s h
    exact cycleStep_eq_inr_of_route env m s h

/-- Witness for C7: a concrete erroring rewriter leaves the question
unchanged while consuming one unit of retry budget. -/
theorem rewrite_failure_identity_fallback_witness :
    (rewrite_query envError (create_initial_state "q")).question =
        (create_initial_state "q").question ∧
      (rewrite_query envError (create_initial_state "q")).rewrite_count =
        (create_initial_state "q").rewrite_count + 1 ∧
      (rewrite_query envError (create_initial_state "q")).query_history =
        (create_initial_state "q").query_history ++
          [(create_initial_state "q").question] :=
  rewrite_failure_identity_fallback.1 envError (create_initial_state "q")
    rfl

/-- C8: when the generator's model call errors, the generate node sets
the answer to the one fixed apologetic fallback string, which is
non-empty, so the request completes with an answer present. -/
theorem generation_failure_apology_fallback :
    (∀ env s,
        env.genResp s.rewrite_count s.question s.graded_documents =
          Except.error () →
        (generate env s).generation = GENERATION_FALLBACK) ∧
    GENERATION_FALLBACK ≠ "" := by
  constructor
  · intro env s h
    unfold generate
    rw [h]
  · decide

/-- Witness for C8: a concrete erroring generator yields the fixed
apology string. -/
theorem generation_failure_apology_fallback_witness :
    (generate envError (create_initial_state "q")).generation =
      GENERATION_FALLBACK :=
  generation_failure_apology_fallback.1 envError (create_initial_state "q")
    rfl

/-- C9: within one attempt the grading loop issues exactly one model call
per retrieved passage, in retrieval order, and the graded subset it
produces is the order-preserving filter of the retrieved list — a
subsequence of the retrieved list in its original retrieval order. -/
theorem grading_preserves_retrieval_order :
    (∀ env c q docs, (gradeLoop env c q docs).2 =
        docs.map (fun d => get_grader_prompt q d.page_content)) ∧
    (∀ env c q docs, (gradeLoop env c q docs).2.length = docs.length) ∧
    (∀ env c q docs, (gradeLoop env c q docs).1 =
        docs.filter (fun d => docKept (env.gradeResp c q d))) ∧
    (∀ env c q docs, List.Sublist (gradeLoop env c q docs).1 docs) := by
  refine ⟨gradeLoop_snd_eq_map, ?_, gradeLoop_fst_eq_filter, ?_⟩
  · intro env c q docs
    rw [gradeLoop_snd_eq_map, List.length_map]
  · intro env c q docs
    rw [gradeLoop_fst_eq_filter]
    exact List.filter_sublist docs

/-- C10 counterexample: a passage whose content is the empty string is
NOT skipped — the grading loop sends exactly one prompt, built from the
empty content, to the model. -/
theorem empty_content_sent_counterexample :
    (gradeLoop envIrr 0 "q" [emptyDoc]).2 ≠ [] ∧
    (gradeLoop envIrr 0 "q" [emptyDoc]).2 = [get_grader_prompt "q" ""] := by
  exact ⟨by decide, rfl⟩

/-- C10 amended: the grading loop has no empty-content skip: every
retrieved passage, including one with empty content, gets a model call
with a prompt built from its content, and is classified by the same
response rules (for instance, it too is kept on a model error). -/
theorem empty_content_still_sent :
    (∀ env c q docs d, d ∈ docs →
        get_grader_prompt q d.page_content ∈ (gradeLoop env c q docs).2) ∧
    (∀ env c q d, env.gradeResp c q d = Except.error () →
        (gradeLoop env c q [d]).1 = [d]) := by
  constructor
  · intro env c q docs d hd
    rw [gradeLoop_snd_eq_map]
    exact List.mem_map_of_mem _ hd
  · intro env c q d h
    simp [gradeLoop, h, docKept]

/-- Witness for C10 (amended): the concrete empty-content passage
produces a model call. -/
theorem empty_content_still_sent_witness :
    get_grader_prompt "q" emptyDoc.page_content ∈
      (gradeLoop envIrr 0 "q" [emptyDoc]).2 :=
  empty_content_still_sent.1 envIrr 0 "q" [emptyDoc] emptyDoc (by decide)

end AlMuhamiCrag
